import Mathlib

/-
  Verification development for the smeshLLM Raspberry Pi telemetry uploaders.

  Shallow embedding of the queue / batch-upload / normalizer pipeline of
  `raspberry_pi_meshtastic_uploader.py` (class MeshtasticTelemetryUploader)
  and of the enqueue path of `raspberry_pi_supabase_uploader.py`
  (class SupabaseUploader).

  Modelling conventions:
  - Python dicts of numeric metrics are association lists `List (String × ℚ)`;
    `d.get(k)` is `dictGet d k : Option ℚ` (first match, as in a dict where
    keys are unique).
  - Python `a or b` on such lookups is `pyOr`: the left operand unless it is
    falsy (`None` or `0`), else the right operand.
  - Record dicts produced by the formatters are association lists
    `List (String × PyVal)` in the literal key order of the source.
  - Timestamps are passed as an abstract clock value (`now : ℕ`); the ISO
    string of a record timestamp is an opaque `String` parameter.
  - The result of one HTTP POST attempt is an `Outcome`: a response with a
    status code, a `requests` transport exception, or any other exception
    (the source's final `except Exception` arm).  Response bodies are used
    only for logging and are not modelled.
  - Network effects are tracked as a trace: each function returns the list
    of upload attempts (batch payloads handed to one POST) it performed.
-/

namespace Smesh

/-- A metrics dict (e.g. `deviceMetrics`, `airQualityMetrics`): numeric
values keyed by strings. -/
abbrev MDict := List (String × ℚ)

/-- A Python value stored in a formatted record dict: `None`, a number,
a string, or the raw metrics payload kept for audit (`raw_data`). -/
inductive PyVal where
  | none
  | num (q : ℚ)
  | str (s : String)
  | raw (m : MDict)
deriving DecidableEq

/-- Dict lookup, `d.get(k)`: the value at the first matching key, if any. -/
def dictGet {β : Type} (d : List (String × β)) (k : String) : Option β :=
  (d.find? (fun p => p.1 == k)).map Prod.snd

/-- Wrap an optional number the way a Python dict stores `d.get(k)`:
a missing value becomes the explicit `None` marker. -/
def optVal (o : Option ℚ) : PyVal :=
  match o with
  | Option.none => PyVal.none
  | Option.some q => PyVal.num q

/-- Python `a or b` on two optional readings: the left value unless it is
falsy (`None`, or the number `0`), in which case the right operand. -/
def pyOr (a b : Option ℚ) : Option ℚ :=
  match a with
  | Option.none => b
  | Option.some v => if v = 0 then b else Option.some v

/-- The `telemetry` sub-object of a decoded packet: up to three metrics
groups. -/
structure Telemetry where
  deviceMetrics : Option MDict
  environmentMetrics : Option MDict
  airQualityMetrics : Option MDict

/-- The `decoded` part of a packet: the application port name and the
optional telemetry object. -/
structure Decoded where
  portnum : String
  telemetry : Option Telemetry

/-- A received packet: top-level radio-quality fields read by the
formatters via `packet.get(...)`, plus the optional `decoded` object. -/
structure Packet where
  rxRssi : Option ℚ
  rxSnr : Option ℚ
  hopLimit : Option ℚ
  decoded : Option Decoded

/-- A formatted telemetry record: a dict from field name to value. -/
abbrev Rec := List (String × PyVal)

/-- MeshtasticTelemetryUploader._format_device_metrics: the device-kind
record, all 27 keys in source order. -/
def formatDeviceMetrics (nodeId ts : String) (metrics : MDict) (packet : Packet) : Rec :=
  [("sensor_id", PyVal.str nodeId),
   ("timestamp", PyVal.str ts),
   ("telemetry_type", PyVal.str "device"),
   ("location", PyVal.none),
   ("voltage", optVal (dictGet metrics "voltage")),
   ("battery_level", optVal (dictGet metrics "batteryLevel")),
   ("air_util_tx", optVal (dictGet metrics "airUtilTx")),
   ("uptime_seconds", optVal (dictGet metrics "uptimeSeconds")),
   ("channel_utilization", optVal (dictGet metrics "channelUtilization")),
   ("temperature_c", PyVal.none),
   ("relative_humidity_pct", PyVal.none),
   ("barometric_pressure", PyVal.none),
   ("gas_resistance", PyVal.none),
   ("iaq", PyVal.none),
   ("wind_direction", PyVal.none),
   ("wind_speed", PyVal.none),
   ("pm25_ugm3", PyVal.none),
   ("pm10_ugm3", PyVal.none),
   ("pm100_ugm3", PyVal.none),
   ("pm1_ugm3", PyVal.none),
   ("ch3_voltage", PyVal.none),
   ("ch3_current", PyVal.none),
   ("rssi", optVal packet.rxRssi),
   ("snr", optVal packet.rxSnr),
   ("hop_limit", optVal packet.hopLimit),
   ("hop_start", PyVal.none),
   ("raw_data", PyVal.raw metrics)]

/-- MeshtasticTelemetryUploader._format_environment_metrics: the
environment-kind record, all 27 keys in source order. -/
def formatEnvironmentMetrics (nodeId ts : String) (metrics : MDict) (packet : Packet) : Rec :=
  [("sensor_id", PyVal.str nodeId),
   ("timestamp", PyVal.str ts),
   ("telemetry_type", PyVal.str "environment"),
   ("location", PyVal.none),
   ("voltage", PyVal.none),
   ("battery_level", PyVal.none),
   ("air_util_tx", PyVal.none),
   ("uptime_seconds", PyVal.none),
   ("channel_utilization", PyVal.none),
   ("temperature_c", optVal (dictGet metrics "temperature")),
   ("relative_humidity_pct", optVal (dictGet metrics "relativeHumidity")),
   ("barometric_pressure", optVal (dictGet metrics "barometricPressure")),
   ("gas_resistance", optVal (dictGet metrics "gasResistance")),
   ("iaq", optVal (dictGet metrics "iaq")),
   ("wind_direction", optVal (dictGet metrics "windDirection")),
   ("wind_speed", optVal (dictGet metrics "windSpeed")),
   ("pm25_ugm3", PyVal.none),
   ("pm10_ugm3", PyVal.none),
   ("pm100_ugm3", PyVal.none),
   ("pm1_ugm3", PyVal.none),
   ("ch3_voltage", PyVal.none),
   ("ch3_current", PyVal.none),
   ("rssi", optVal packet.rxRssi),
   ("snr", optVal packet.rxSnr),
   ("hop_limit", PyVal.none),
   ("hop_start", PyVal.none),
   ("raw_data", PyVal.raw metrics)]

/-- MeshtasticTelemetryUploader._format_air_quality_metrics: the
air-quality-kind record, all 27 keys in source order.  The PM fields use
Python `or` fallback (`pyOr`); `pm1_ugm3` reuses the `pm10Standard`
reading, as the source does. -/
def formatAirQualityMetrics (nodeId ts : String) (metrics : MDict) (packet : Packet) : Rec :=
  [("sensor_id", PyVal.str nodeId),
   ("timestamp", PyVal.str ts),
   ("telemetry_type", PyVal.str "air_quality"),
   ("location", PyVal.none),
   ("voltage", PyVal.none),
   ("battery_level", PyVal.none),
   ("air_util_tx", PyVal.none),
   ("uptime_seconds", PyVal.none),
   ("channel_utilization", PyVal.none),
   ("temperature_c", PyVal.none),
   ("relative_humidity_pct", PyVal.none),
   ("barometric_pressure", PyVal.none),
   ("gas_resistance", PyVal.none),
   ("iaq", PyVal.none),
   ("wind_direction", PyVal.none),
   ("wind_speed", PyVal.none),
   ("pm25_ugm3", optVal (pyOr (dictGet metrics "pm25Standard") (dictGet metrics "pm25Environmental"))),
   ("pm10_ugm3", optVal (pyOr (dictGet metrics "pm10Standard") (dictGet metrics "pm10Environmental"))),
   ("pm100_ugm3", optVal (pyOr (dictGet metrics "pm100Standard") (dictGet metrics "pm100Environmental"))),
   ("pm1_ugm3", optVal (dictGet metrics "pm10Standard")),
   ("ch3_voltage", PyVal.none),
   ("ch3_current", PyVal.none),
   ("rssi", optVal packet.rxRssi),
   ("snr", optVal packet.rxSnr),
   ("hop_limit", PyVal.none),
   ("hop_start", PyVal.none),
   ("raw_data", PyVal.raw metrics)]

/-- The fixed key set (in order) shared by every formatted record. -/
def recordKeys : List String :=
  ["sensor_id", "timestamp", "telemetry_type", "location",
   "voltage", "battery_level", "air_util_tx", "uptime_seconds",
   "channel_utilization", "temperature_c", "relative_humidity_pct",
   "barometric_pressure", "gas_resistance", "iaq", "wind_direction",
   "wind_speed", "pm25_ugm3", "pm10_ugm3", "pm100_ugm3", "pm1_ugm3",
   "ch3_voltage", "ch3_current", "rssi", "snr", "hop_limit",
   "hop_start", "raw_data"]

/-- Mutable state of MeshtasticTelemetryUploader: the upload queue, the
cumulative `total_uploaded` counter, and the `last_upload` clock value.
The element type is a parameter so that scenario theorems can use opaque
record labels. -/
structure UploaderState (α : Type) where
  queue : List α
  total_uploaded : ℕ
  last_upload : ℕ
deriving DecidableEq

/-- The result of one HTTP POST attempt inside `_upload_batch`:
a response with its status code, a `requests.exceptions.RequestException`
(network / transport error), or any other exception raised during the
attempt (the source's final `except Exception` arm). -/
inductive Outcome where
  | http (status : ℕ)
  | requestExc
  | otherExc
deriving DecidableEq

/-- MeshtasticTelemetryUploader._upload_batch, as called from the worker
thread (the queue lock is free at call time).  Returns the list of upload
attempts made (one POST of the batch, unless the batch is empty) and the
updated state:
- status 200 or 201: add `len(batch)` to `total_uploaded`, set
  `last_upload` to the current clock, leave the queue alone;
- any other status, or a transport exception: extend the queue with the
  batch (re-queue at the tail);
- any other exception: log only — state unchanged, batch dropped. -/
def uploadBatch {α : Type} (batch : List α) (o : Outcome) (now : ℕ)
    (s : UploaderState α) : List (List α) × UploaderState α :=
  match batch with
  | [] => ([], s)
  | _ =>
    ([batch],
      match o with
      | Outcome.http st =>
        if st = 200 ∨ st = 201 then
          { s with total_uploaded := s.total_uploaded + batch.length,
                   last_upload := now }
        else
          { s with queue := s.queue ++ batch }
      | Outcome.requestExc => { s with queue := s.queue ++ batch }
      | Outcome.otherExc => s)

/-- The drain step inside `_upload_worker`:
`batch = queue[:max_n]; del queue[:max_n]` under the queue lock.
Returns the drained batch and the remaining queue. -/
def drain {α : Type} (maxN : ℕ) (queue : List α) : List α × List α :=
  (queue.take maxN, queue.drop maxN)

/-- One tick of `_upload_worker`: skip when the queue is empty, otherwise
drain up to `bsize` records under the lock and hand the batch to
`_upload_batch` (the lock is released before the upload). -/
def uploadTick {α : Type} (bsize : ℕ) (o : Outcome) (now : ℕ)
    (s : UploaderState α) : List (List α) × UploaderState α :=
  if s.queue.length = 0 then ([], s)
  else if (drain bsize s.queue).1.isEmpty then
    ([], { s with queue := (drain bsize s.queue).2 })
  else
    uploadBatch (drain bsize s.queue).1 o now
      { s with queue := (drain bsize s.queue).2 }

/-- MeshtasticTelemetryUploader.shutdown: acquires the queue lock and, if
the queue is non-empty, calls `_upload_batch(self.upload_queue)` on the
whole queue (no batch-size cap) and then clears the queue, all while
holding the lock.  `threading.Lock` is not reentrant, so the re-queue
branches of `_upload_batch` (`with self.queue_lock` on a non-success
status or a transport exception) block forever on the lock shutdown
already holds; that blocked execution is modelled as `none`.  The first
component is the list of upload attempts issued. -/
def shutdown {α : Type} (o : Outcome) (now : ℕ)
    (s : UploaderState α) : List (List α) × Option (UploaderState α) :=
  if s.queue.isEmpty then ([], Option.some s)
  else
    ([s.queue],
      match o with
      | Outcome.http st =>
        if st = 200 ∨ st = 201 then
          Option.some { queue := [],
                        total_uploaded := s.total_uploaded + s.queue.length,
                        last_upload := now }
        else Option.none
      | Outcome.requestExc => Option.none
      | Outcome.otherExc => Option.some { s with queue := [] })

/-- MeshtasticTelemetryUploader.add_telemetry: for each metrics group
present under `packet.decoded.telemetry`, format a record and append it
to the upload queue under the lock, in source order (device, environment,
air quality).  The formatters cannot raise on these well-formed inputs,
so each formatted record is non-None and is appended.  The first
component is the list of network calls made on this path: always `[]`. -/
def addTelemetry (nodeId ts : String) (packet : Packet)
    (s : UploaderState Rec) : List (List Rec) × UploaderState Rec :=
  match packet.decoded with
  | Option.none => ([], s)
  | Option.some d =>
    match d.telemetry with
    | Option.none => ([], s)
    | Option.some t =>
      let q1 := match t.deviceMetrics with
        | Option.some m => s.queue ++ [formatDeviceMetrics nodeId ts m packet]
        | Option.none => s.queue
      let q2 := match t.environmentMetrics with
        | Option.some m => q1 ++ [formatEnvironmentMetrics nodeId ts m packet]
        | Option.none => q1
      let q3 := match t.airQualityMetrics with
        | Option.some m => q2 ++ [formatAirQualityMetrics nodeId ts m packet]
        | Option.none => q2
      ([], { s with queue := q3 })

/-- State of SupabaseUploader (`raspberry_pi_supabase_uploader.py`): the
`pending_readings` list.  Readings are opaque here. -/
structure SupaState (α : Type) where
  pending : List α
deriving DecidableEq

/-- The result of SupabaseUploader.upload_batch's POST attempt: a response
with a status code, or any exception. -/
inductive Outcome2 where
  | http (status : ℕ)
  | exc
deriving DecidableEq

/-- SupabaseUploader.upload_batch: if any readings are pending, POST them
all in one request (the per-reading JSON payload conversion is abstracted
to the list of readings; the claim settled with this model concerns only
whether a network call happens).  Status 200 clears the pending list; any
other status or an exception leaves it in place.  The first component is
the list of upload attempts issued. -/
def uploadBatch2 {α : Type} (o : Outcome2) (s : SupaState α) :
    List (List α) × SupaState α :=
  if s.pending.isEmpty then ([], s)
  else
    ([s.pending],
      match o with
      | Outcome2.http st => if st = 200 then { pending := [] } else s
      | Outcome2.exc => s)

/-- SupabaseUploader.add_reading: append the reading to `pending_readings`
and, when the pending count has reached `BATCH_SIZE`, synchronously call
`upload_batch` — on the caller's thread. -/
def addReading {α : Type} (bsize : ℕ) (r : α) (o : Outcome2)
    (s : SupaState α) : List (List α) × SupaState α :=
  if bsize ≤ (s.pending ++ [r]).length then
    uploadBatch2 o { pending := s.pending ++ [r] }
  else ([], { pending := s.pending ++ [r] })

/-- C1 (counterexample).  With `pm25Standard` present and equal to `0`
and `pm25Environmental` equal to `5`, the produced record's `pm25_ugm3`
is `5`, not the present standard reading `0`: Python `or` skips a falsy
(zero) standard reading, so the claim's "standard when present" rule
fails. -/
theorem c1_zero_standard_cex :
    dictGet [("pm25Standard", (0 : ℚ)), ("pm25Environmental", (5 : ℚ))] "pm25Standard"
      = Option.some 0
    ∧ dictGet (formatAirQualityMetrics "node" "ts"
        [("pm25Standard", (0 : ℚ)), ("pm25Environmental", (5 : ℚ))]
        ⟨Option.none, Option.none, Option.none, Option.none⟩) "pm25_ugm3"
      = Option.some (PyVal.num 5)
    ∧ PyVal.num 5 ≠ PyVal.num 0 := by
  refine ⟨rfl, rfl, by decide⟩

/-- C1 (amended).  For every air-quality metrics object, `pm25_ugm3`
equals the `pm25Standard` value when that reading is present and nonzero;
when it is absent or zero (falsy under Python `or`), the field equals the
`pm25Environmental` value when present, else is absent.  The identical
rule holds for `pm10_ugm3` and `pm100_ugm3`; `pm1_ugm3` equals the
`pm10Standard` value (absent when that key is absent). -/
theorem c1_pm_mapping (nodeId ts : String) (m : MDict) (p : Packet) (v : ℚ) :
    (dictGet m "pm25Standard" = Option.some v → v ≠ 0 →
      dictGet (formatAirQualityMetrics nodeId ts m p) "pm25_ugm3" = Option.some (PyVal.num v))
    ∧ (dictGet m "pm25Standard" = Option.none ∨ dictGet m "pm25Standard" = Option.some 0 →
      dictGet (formatAirQualityMetrics nodeId ts m p) "pm25_ugm3"
        = Option.some (optVal (dictGet m "pm25Environmental")))
    ∧ (dictGet m "pm10Standard" = Option.some v → v ≠ 0 →
      dictGet (formatAirQualityMetrics nodeId ts m p) "pm10_ugm3" = Option.some (PyVal.num v))
    ∧ (dictGet m "pm10Standard" = Option.none ∨ dictGet m "pm10Standard" = Option.some 0 →
      dictGet (formatAirQualityMetrics nodeId ts m p) "pm10_ugm3"
        = Option.some (optVal (dictGet m "pm10Environmental")))
    ∧ (dictGet m "pm100Standard" = Option.some v → v ≠ 0 →
      dictGet (formatAirQualityMetrics nodeId ts m p) "pm100_ugm3" = Option.some (PyVal.num v))
    ∧ (dictGet m "pm100Standard" = Option.none ∨ dictGet m "pm100Standard" = Option.some 0 →
      dictGet (formatAirQualityMetrics nodeId ts m p) "pm100_ugm3"
        = Option.some (optVal (dictGet m "pm100Environmental")))
    ∧ dictGet (formatAirQualityMetrics nodeId ts m p) "pm1_ugm3"
        = Option.some (optVal (dictGet m "pm10Standard")) := by
  have h25 : dictGet (formatAirQualityMetrics nodeId ts m p) "pm25_ugm3"
      = Option.some (optVal (pyOr (dictGet m "pm25Standard") (dictGet m "pm25Environmental"))) := rfl
  have h10 : dictGet (formatAirQualityMetrics nodeId ts m p) "pm10_ugm3"
      = Option.some (optVal (pyOr (dictGet m "pm10Standard") (dictGet m "pm10Environmental"))) := rfl
  have h100 : dictGet (formatAirQualityMetrics nodeId ts m p) "pm100_ugm3"
      = Option.some (optVal (pyOr (dictGet m "pm100Standard") (dictGet m "pm100Environmental"))) := rfl
  have h1 : dictGet (formatAirQualityMetrics nodeId ts m p) "pm1_ugm3"
      = Option.some (optVal (dictGet m "pm10Standard")) := rfl
  refine ⟨?_, ?_, ?_, ?_, ?_, ?_, h1⟩
  · intro h hv; rw [h25, h]; simp [pyOr, optVal, hv]
  · intro h; rcases h with h | h <;> rw [h25, h] <;> simp [pyOr]
  · intro h hv; rw [h10, h]; simp [pyOr, optVal, hv]
  · intro h; rcases h with h | h <;> rw [h10, h] <;> simp [pyOr]
  · intro h hv; rw [h100, h]; simp [pyOr, optVal, hv]
  · intro h; rcases h with h | h <;> rw [h100, h] <;> simp [pyOr]

/-- C1 (witness).  A nonzero standard reading is copied into `pm25_ugm3`. -/
theorem c1_pm_mapping_w :
    dictGet (formatAirQualityMetrics "node" "ts" [("pm25Standard", (3 : ℚ))]
      ⟨Option.none, Option.none, Option.none, Option.none⟩) "pm25_ugm3"
      = Option.some (PyVal.num 3) :=
  (c1_pm_mapping "node" "ts" [("pm25Standard", (3 : ℚ))]
    ⟨Option.none, Option.none, Option.none, Option.none⟩ 3).1 rfl (by norm_num)

/-- C2 (counterexample).  A batch whose upload attempt fails with an
exception that is not a `requests` transport error (the source's final
`except Exception` arm) is NOT returned to the queue: after the failed
attempt the queue is still empty and the batch record is gone. -/
theorem c2_dropped_batch_cex :
    (uploadBatch [0] Outcome.otherExc 3 (⟨[], 0, 0⟩ : UploaderState ℕ)).2.queue = []
    ∧ (0 : ℕ) ∉ (uploadBatch [0] Outcome.otherExc 3 (⟨[], 0, 0⟩ : UploaderState ℕ)).2.queue := by
  decide

/-- C2 (amended).  A drained batch whose upload fails with a non-success
HTTP status or with a `requests` transport error is returned in full to
the tail of the queue, with the uploaded counter unchanged; a batch whose
upload attempt raises any other exception is only logged and is
discarded — that one failure path does not requeue. -/
theorem c2_requeue_on_failure {α : Type} (batch : List α) (st now : ℕ)
    (s : UploaderState α) (hb : batch ≠ []) (hst : ¬(st = 200 ∨ st = 201)) :
    (uploadBatch batch (Outcome.http st) now s).2.queue = s.queue ++ batch
    ∧ (uploadBatch batch (Outcome.http st) now s).2.total_uploaded = s.total_uploaded
    ∧ (uploadBatch batch Outcome.requestExc now s).2.queue = s.queue ++ batch
    ∧ (uploadBatch batch Outcome.requestExc now s).2.total_uploaded = s.total_uploaded
    ∧ (uploadBatch batch Outcome.otherExc now s).2 = s := by
  match batch, hb with
  | a :: l, _ =>
    refine ⟨?_, ?_, ?_, ?_, ?_⟩ <;> simp [uploadBatch, hst]

/-- C2 (witness).  A concrete non-success status re-queues the batch. -/
theorem c2_requeue_on_failure_w :
    (uploadBatch [7] (Outcome.http 500) 1 (⟨[1, 2], 4, 0⟩ : UploaderState ℕ)).2.queue
      = (⟨[1, 2], 4, 0⟩ : UploaderState ℕ).queue ++ [7]
    ∧ (uploadBatch [7] (Outcome.http 500) 1 (⟨[1, 2], 4, 0⟩ : UploaderState ℕ)).2.total_uploaded
      = (⟨[1, 2], 4, 0⟩ : UploaderState ℕ).total_uploaded
    ∧ (uploadBatch [7] Outcome.requestExc 1 (⟨[1, 2], 4, 0⟩ : UploaderState ℕ)).2.queue
      = (⟨[1, 2], 4, 0⟩ : UploaderState ℕ).queue ++ [7]
    ∧ (uploadBatch [7] Outcome.requestExc 1 (⟨[1, 2], 4, 0⟩ : UploaderState ℕ)).2.total_uploaded
      = (⟨[1, 2], 4, 0⟩ : UploaderState ℕ).total_uploaded
    ∧ (uploadBatch [7] Outcome.otherExc 1 (⟨[1, 2], 4, 0⟩ : UploaderState ℕ)).2
      = (⟨[1, 2], 4, 0⟩ : UploaderState ℕ) :=
  c2_requeue_on_failure [7] 500 1 ⟨[1, 2], 4, 0⟩ (by decide) (by decide)

/-- C3 (counterexample).  Enqueue A=0, B=1, C=2 with batch size 2: the
first tick drains [A,B]; on upload failure the re-queue appends to the
tail, so the queue becomes [C,A,B] — not [A,B,C] as claimed. -/
theorem c3_requeue_order_cex :
    (uploadTick 2 (Outcome.http 500) 0 (⟨[0, 1, 2], 0, 0⟩ : UploaderState ℕ)).2.queue = [2, 0, 1]
    ∧ (uploadTick 2 (Outcome.http 500) 0 (⟨[0, 1, 2], 0, 0⟩ : UploaderState ℕ)).2.queue
      ≠ [0, 1, 2] := by decide

/-- C3 (amended).  With records A=0, B=1, C=2 and batch size 2: the first
tick drains [A,B]; that upload fails, and the queue becomes [C,A,B]
(re-queued records go to the tail after C).  The second tick drains
[C,A]; that upload succeeds, the queue then holds exactly [B], and the
cumulative uploaded counter equals 2. -/
theorem c3_two_tick_scenario :
    uploadTick 2 (Outcome.http 500) 0 (⟨[0, 1, 2], 0, 0⟩ : UploaderState ℕ)
      = ([[0, 1]], ⟨[2, 0, 1], 0, 0⟩)
    ∧ uploadTick 2 (Outcome.http 200) 7 (⟨[2, 0, 1], 0, 0⟩ : UploaderState ℕ)
      = ([[2, 0]], ⟨[1], 2, 7⟩) := by decide

/-- C4 (counterexample).  Status 204 is in the 2xx range, yet the upload
is treated as a failure: the batch is re-queued and neither the counter
nor the last-success timestamp changes.  The claimed "success iff 2xx"
equivalence is false at this input. -/
theorem c4_status204_cex :
    ((200 : ℕ) ≤ 204 ∧ (204 : ℕ) < 300)
    ∧ (uploadBatch [5] (Outcome.http 204) 9 (⟨[], 0, 3⟩ : UploaderState ℕ)).2.queue = [5]
    ∧ (uploadBatch [5] (Outcome.http 204) 9 (⟨[], 0, 3⟩ : UploaderState ℕ)).2.total_uploaded = 0
    ∧ (uploadBatch [5] (Outcome.http 204) 9 (⟨[], 0, 3⟩ : UploaderState ℕ)).2.last_upload = 3 := by
  decide

/-- C4 (amended).  For every HTTP response to a batch upload POST, the
upload is treated as a success — batch discarded (queue untouched),
cumulative counter incremented by the batch size, last-success timestamp
recorded — if and only if the status code is exactly 200 or 201. -/
theorem c4_success_iff {α : Type} (batch : List α) (st now : ℕ)
    (s : UploaderState α) (hb : batch ≠ []) :
    ((uploadBatch batch (Outcome.http st) now s).2.queue = s.queue
     ∧ (uploadBatch batch (Outcome.http st) now s).2.total_uploaded
        = s.total_uploaded + batch.length
     ∧ (uploadBatch batch (Outcome.http st) now s).2.last_upload = now)
    ↔ (st = 200 ∨ st = 201) := by
  match batch, hb with
  | a :: l, _ =>
    by_cases h : st = 200 ∨ st = 201
    · simp [uploadBatch, h]
    · constructor
      · intro hc
        exfalso
        have h1 : s.queue ++ (a :: l) = s.queue := by
          simpa [uploadBatch, h] using hc.1
        have hlen := congrArg List.length h1
        simp [List.length_append] at hlen
      · intro hc; exact absurd hc h

/-- Helper: a worker tick on a state whose head slice of size `bsize` is
the (non-empty) batch, with a 200 response, drops that slice and adds its
length to the counter. -/
theorem uploadTick_success_eq {α : Type} (bsize now2 : ℕ) (s2 : UploaderState α)
    (batch : List α) (hb : batch ≠ []) (htake : s2.queue.take bsize = batch) :
    (uploadTick bsize (Outcome.http 200) now2 s2).2
      = ⟨s2.queue.drop bsize, s2.total_uploaded + batch.length, now2⟩ := by
  match batch, hb, htake with
  | a :: l, _, htake =>
    have hq0 : ¬ s2.queue.length = 0 := by
      intro h0
      have hnil : s2.queue = [] := List.length_eq_zero.mp h0
      rw [hnil, List.take_nil] at htake
      exact List.noConfusion htake
    simp [uploadTick, hq0, drain, htake, uploadBatch]

/-- C5 (theorem).  For every drained batch of size k: a failed upload
(non-success HTTP status, or transport error) increases the queue length
by exactly k via the requeue and leaves the cumulative counter unchanged;
a subsequent successful upload of the same batch — drained again from the
head of the queue — reduces the queue length by k, with the counter
incremented by k exactly once, on the success. -/
theorem c5_failure_then_success {α : Type} (s s2 : UploaderState α)
    (batch : List α) (st now now2 bsize : ℕ) (hb : batch ≠ [])
    (hst : ¬(st = 200 ∨ st = 201)) (htake : s2.queue.take bsize = batch) :
    (uploadBatch batch (Outcome.http st) now s).2.queue.length
      = s.queue.length + batch.length
    ∧ (uploadBatch batch (Outcome.http st) now s).2.total_uploaded = s.total_uploaded
    ∧ (uploadBatch batch Outcome.requestExc now s).2.queue.length
      = s.queue.length + batch.length
    ∧ (uploadBatch batch Outcome.requestExc now s).2.total_uploaded = s.total_uploaded
    ∧ (uploadTick bsize (Outcome.http 200) now2 s2).2.queue.length
      = s2.queue.length - batch.length
    ∧ (uploadTick bsize (Outcome.http 200) now2 s2).2.total_uploaded
      = s2.total_uploaded + batch.length := by
  match batch, hb, htake with
  | a :: l, _, htake =>
    have hsucc := uploadTick_success_eq bsize now2 s2 (a :: l) (by simp) htake
    have hmin : (a :: l).length = min bsize s2.queue.length := by
      rw [← htake, List.length_take]
    refine ⟨?_, ?_, ?_, ?_, ?_, ?_⟩
    · simp [uploadBatch, hst]
    · simp [uploadBatch, hst]
    · simp [uploadBatch]
    · simp [uploadBatch]
    · rw [hsucc]
      simp only [List.length_drop]
      omega
    · rw [hsucc]

/-- C5 (witness).  Batch [7] fails against an empty-queue state (queue
grows to length 1, counter stays 5); retried from the post-failure state
⟨[7], 5, 0⟩ with a 200 response, the queue shrinks back and the counter
becomes 6. -/
theorem c5_failure_then_success_w :
    (uploadBatch [7] (Outcome.http 503) 1 (⟨[], 5, 0⟩ : UploaderState ℕ)).2.queue.length
      = (⟨[], 5, 0⟩ : UploaderState ℕ).queue.length + [7].length
    ∧ (uploadBatch [7] (Outcome.http 503) 1 (⟨[], 5, 0⟩ : UploaderState ℕ)).2.total_uploaded
      = (⟨[], 5, 0⟩ : UploaderState ℕ).total_uploaded
    ∧ (uploadBatch [7] Outcome.requestExc 1 (⟨[], 5, 0⟩ : UploaderState ℕ)).2.queue.length
      = (⟨[], 5, 0⟩ : UploaderState ℕ).queue.length + [7].length
    ∧ (uploadBatch [7] Outcome.requestExc 1 (⟨[], 5, 0⟩ : UploaderState ℕ)).2.total_uploaded
      = (⟨[], 5, 0⟩ : UploaderState ℕ).total_uploaded
    ∧ (uploadTick 2 (Outcome.http 200) 2 (⟨[7], 5, 0⟩ : UploaderState ℕ)).2.queue.length
      = (⟨[7], 5, 0⟩ : UploaderState ℕ).queue.length - [7].length
    ∧ (uploadTick 2 (Outcome.http 200) 2 (⟨[7], 5, 0⟩ : UploaderState ℕ)).2.total_uploaded
      = (⟨[7], 5, 0⟩ : UploaderState ℕ).total_uploaded + [7].length :=
  c5_failure_then_success ⟨[], 5, 0⟩ ⟨[7], 5, 0⟩ [7] 503 1 2 2
    (by decide) (by decide) (by decide)

/-- C6 (theorem).  The uploader's drain removes and returns exactly the
first min(queue length, max_n) records from the head of the queue, and
the records it leaves behind are the rest of the queue in order; in
particular, draining more than the queue holds returns the whole queue
and leaves it empty. -/
theorem c6_drain_spec {α : Type} (q : List α) (n : ℕ) :
    (drain n q).1.length = min n q.length
    ∧ (drain n q).1 ++ (drain n q).2 = q
    ∧ (q.length < n → (drain n q).1 = q ∧ (drain n q).2 = []) := by
  refine ⟨List.length_take n q, List.take_append_drop n q, ?_⟩
  intro h
  exact ⟨List.take_of_length_le (le_of_lt h), List.drop_eq_nil_of_le (le_of_lt h)⟩

/-- C6 (witness).  Draining 5 from a 2-element queue returns both records
and leaves the queue empty. -/
theorem c6_drain_spec_w :
    (drain 5 ([3, 4] : List ℕ)).1 = [3, 4] ∧ (drain 5 ([3, 4] : List ℕ)).2 = [] :=
  (c6_drain_spec ([3, 4] : List ℕ) 5).2.2 (by decide)

/-- C7 (theorem).  On shutdown with a non-empty queue, exactly one upload
call is issued and it carries the entire remaining queue; no batch-size
cap applies (the flush does not depend on any batch-size bound). -/
theorem c7_final_flush {α : Type} (o : Outcome) (now : ℕ)
    (s : UploaderState α) (h : s.queue ≠ []) :
    (shutdown o now s).1 = [s.queue] := by
  cases hq : s.queue with
  | nil => exact absurd hq h
  | cons a l => simp [shutdown, hq]

/-- C7 (witness).  A queue of 5 records is flushed in one call holding
all 5, although the configured batch size (default 10, scenario 2) never
enters the computation. -/
theorem c7_final_flush_w :
    (shutdown (Outcome.http 200) 3 (⟨[0, 1, 2, 3, 4], 0, 0⟩ : UploaderState ℕ)).1
      = [[0, 1, 2, 3, 4]] :=
  c7_final_flush (Outcome.http 200) 3 ⟨[0, 1, 2, 3, 4], 0, 0⟩ (by decide)

/-- C8 (theorem).  Every record produced by the normalizer carries the
identical fixed key set (in the same order) regardless of its record
kind; the `telemetry_type` field names the kind; the field group
matching the kind is populated from the input metrics, and every field
of the other two groups is explicitly present with the absent marker
`None`, never omitted. -/
theorem c8_record_shape (nodeId ts : String) (m : MDict) (p : Packet) :
    (formatDeviceMetrics nodeId ts m p).map Prod.fst = recordKeys
    ∧ (formatEnvironmentMetrics nodeId ts m p).map Prod.fst = recordKeys
    ∧ (formatAirQualityMetrics nodeId ts m p).map Prod.fst = recordKeys
    ∧ dictGet (formatDeviceMetrics nodeId ts m p) "telemetry_type"
      = Option.some (PyVal.str "device")
    ∧ dictGet (formatEnvironmentMetrics nodeId ts m p) "telemetry_type"
      = Option.some (PyVal.str "environment")
    ∧ dictGet (formatAirQualityMetrics nodeId ts m p) "telemetry_type"
      = Option.some (PyVal.str "air_quality")
    ∧ dictGet (formatDeviceMetrics nodeId ts m p) "voltage"
      = Option.some (optVal (dictGet m "voltage"))
    ∧ dictGet (formatDeviceMetrics nodeId ts m p) "battery_level"
      = Option.some (optVal (dictGet m "batteryLevel"))
    ∧ dictGet (formatDeviceMetrics nodeId ts m p) "air_util_tx"
      = Option.some (optVal (dictGet m "airUtilTx"))
    ∧ dictGet (formatDeviceMetrics nodeId ts m p) "uptime_seconds"
      = Option.some (optVal (dictGet m "uptimeSeconds"))
    ∧ dictGet (formatDeviceMetrics nodeId ts m p) "channel_utilization"
      = Option.some (optVal (dictGet m "channelUtilization"))
    ∧ dictGet (formatDeviceMetrics nodeId ts m p) "temperature_c" = Option.some PyVal.none
    ∧ dictGet (formatDeviceMetrics nodeId ts m p) "relative_humidity_pct" = Option.some PyVal.none
    ∧ dictGet (formatDeviceMetrics nodeId ts m p) "barometric_pressure" = Option.some PyVal.none
    ∧ dictGet (formatDeviceMetrics nodeId ts m p) "gas_resistance" = Option.some PyVal.none
    ∧ dictGet (formatDeviceMetrics nodeId ts m p) "iaq" = Option.some PyVal.none
    ∧ dictGet (formatDeviceMetrics nodeId ts m p) "wind_direction" = Option.some PyVal.none
    ∧ dictGet (formatDeviceMetrics nodeId ts m p) "wind_speed" = Option.some PyVal.none
    ∧ dictGet (formatDeviceMetrics nodeId ts m p) "pm25_ugm3" = Option.some PyVal.none
    ∧ dictGet (formatDeviceMetrics nodeId ts m p) "pm10_ugm3" = Option.some PyVal.none
    ∧ dictGet (formatDeviceMetrics nodeId ts m p) "pm100_ugm3" = Option.some PyVal.none
    ∧ dictGet (formatDeviceMetrics nodeId ts m p) "pm1_ugm3" = Option.some PyVal.none
    ∧ dictGet (formatEnvironmentMetrics nodeId ts m p) "temperature_c"
      = Option.some (optVal (dictGet m "temperature"))
    ∧ dictGet (formatEnvironmentMetrics nodeId ts m p) "relative_humidity_pct"
      = Option.some (optVal (dictGet m "relativeHumidity"))
    ∧ dictGet (formatEnvironmentMetrics nodeId ts m p) "barometric_pressure"
      = Option.some (optVal (dictGet m "barometricPressure"))
    ∧ dictGet (formatEnvironmentMetrics nodeId ts m p) "gas_resistance"
      = Option.some (optVal (dictGet m "gasResistance"))
    ∧ dictGet (formatEnvironmentMetrics nodeId ts m p) "iaq"
      = Option.some (optVal (dictGet m "iaq"))
    ∧ dictGet (formatEnvironmentMetrics nodeId ts m p) "wind_direction"
      = Option.some (optVal (dictGet m "windDirection"))
    ∧ dictGet (formatEnvironmentMetrics nodeId ts m p) "wind_speed"
      = Option.some (optVal (dictGet m "windSpeed"))
    ∧ dictGet (formatEnvironmentMetrics nodeId ts m p) "voltage" = Option.some PyVal.none
    ∧ dictGet (formatEnvironmentMetrics nodeId ts m p) "battery_level" = Option.some PyVal.none
    ∧ dictGet (formatEnvironmentMetrics nodeId ts m p) "air_util_tx" = Option.some PyVal.none
    ∧ dictGet (formatEnvironmentMetrics nodeId ts m p) "uptime_seconds" = Option.some PyVal.none
    ∧ dictGet (formatEnvironmentMetrics nodeId ts m p) "channel_utilization" = Option.some PyVal.none
    ∧ dictGet (formatEnvironmentMetrics nodeId ts m p) "pm25_ugm3" = Option.some PyVal.none
    ∧ dictGet (formatEnvironmentMetrics nodeId ts m p) "pm10_ugm3" = Option.some PyVal.none
    ∧ dictGet (formatEnvironmentMetrics nodeId ts m p) "pm100_ugm3" = Option.some PyVal.none
    ∧ dictGet (formatEnvironmentMetrics nodeId ts m p) "pm1_ugm3" = Option.some PyVal.none
    ∧ dictGet (formatAirQualityMetrics nodeId ts m p) "pm25_ugm3"
      = Option.some (optVal (pyOr (dictGet m "pm25Standard") (dictGet m "pm25Environmental")))
    ∧ dictGet (formatAirQualityMetrics nodeId ts m p) "pm10_ugm3"
      = Option.some (optVal (pyOr (dictGet m "pm10Standard") (dictGet m "pm10Environmental")))
    ∧ dictGet (formatAirQualityMetrics nodeId ts m p) "pm100_ugm3"
      = Option.some (optVal (pyOr (dictGet m "pm100Standard") (dictGet m "pm100Environmental")))
    ∧ dictGet (formatAirQualityMetrics nodeId ts m p) "pm1_ugm3"
      = Option.some (optVal (dictGet m "pm10Standard"))
    ∧ dictGet (formatAirQualityMetrics nodeId ts m p) "voltage" = Option.some PyVal.none
    ∧ dictGet (formatAirQualityMetrics nodeId ts m p) "battery_level" = Option.some PyVal.none
    ∧ dictGet (formatAirQualityMetrics nodeId ts m p) "air_util_tx" = Option.some PyVal.none
    ∧ dictGet (formatAirQualityMetrics nodeId ts m p) "uptime_seconds" = Option.some PyVal.none
    ∧ dictGet (formatAirQualityMetrics nodeId ts m p) "channel_utilization" = Option.some PyVal.none
    ∧ dictGet (formatAirQualityMetrics nodeId ts m p) "temperature_c" = Option.some PyVal.none
    ∧ dictGet (formatAirQualityMetrics nodeId ts m p) "relative_humidity_pct" = Option.some PyVal.none
    ∧ dictGet (formatAirQualityMetrics nodeId ts m p) "barometric_pressure" = Option.some PyVal.none
    ∧ dictGet (formatAirQualityMetrics nodeId ts m p) "gas_resistance" = Option.some PyVal.none
    ∧ dictGet (formatAirQualityMetrics nodeId ts m p) "iaq" = Option.some PyVal.none
    ∧ dictGet (formatAirQualityMetrics nodeId ts m p) "wind_direction" = Option.some PyVal.none
    ∧ dictGet (formatAirQualityMetrics nodeId ts m p) "wind_speed" = Option.some PyVal.none := by
  repeat' apply And.intro
  all_goals rfl

/-- C9 (counterexample).  With BATCH_SIZE = 50 and 49 readings already
pending, SupabaseUploader.add_reading — the receiver-side enqueue path of
`raspberry_pi_supabase_uploader.py` — synchronously issues an HTTP POST
of all 50 readings on the caller's thread.  The claim that the enqueue
path performs no network I/O is false for this source file. -/
theorem c9_enqueue_posts_cex :
    (addReading 50 (0 : ℕ) (Outcome2.http 200) (⟨List.replicate 49 0⟩ : SupaState ℕ)).1
      = [List.replicate 50 0]
    ∧ (addReading 50 (0 : ℕ) (Outcome2.http 200) (⟨List.replicate 49 0⟩ : SupaState ℕ)).1
      ≠ [] := by decide

/-- C9 (amended).  In `raspberry_pi_meshtastic_uploader.py`, add_telemetry
performs no network call on any input — uploads happen only in the worker
thread's tick; but in `raspberry_pi_supabase_uploader.py`, add_reading
synchronously performs the batch POST on the caller's thread whenever the
pending count reaches BATCH_SIZE. -/
theorem c9_enqueue_network :
    (∀ (nodeId ts : String) (p : Packet) (s : UploaderState Rec),
        (addTelemetry nodeId ts p s).1 = [])
    ∧ (∀ (α : Type) (bsize : ℕ) (r : α) (o : Outcome2) (s : SupaState α),
        bsize ≤ s.pending.length + 1 →
        (addReading bsize r o s).1 = [s.pending ++ [r]]) := by
  constructor
  · intro nodeId ts p s
    rcases p with ⟨r1, r2, r3, d⟩
    cases d with
    | none => rfl
    | some dd =>
      rcases dd with ⟨pn, tel⟩
      cases tel with
      | none => rfl
      | some t =>
        rcases t with ⟨dm, em, am⟩
        cases dm <;> cases em <;> cases am <;> rfl
  · intro α bsize r o s hle
    have hne : (s.pending ++ [r]).isEmpty = false := by
      cases s.pending <;> rfl
    simp [addReading, uploadBatch2, hne, hle]

/-- C9 (witness).  A single reading appended at threshold 1 triggers one
POST of the one-element batch even when the POST itself raises. -/
theorem c9_enqueue_network_w :
    (addReading 1 (0 : ℕ) Outcome2.exc (⟨[]⟩ : SupaState ℕ)).1 = [([] : List ℕ) ++ [0]] :=
  c9_enqueue_network.2 ℕ 1 0 Outcome2.exc ⟨[]⟩ (by decide)

/-- C10 (theorem, failing input).  Shutdown of the Meshtastic uploader
with one queued record: when the final flush fails with a non-success
status or a transport error, the requeue branch re-acquires the
non-reentrant queue lock that shutdown already holds, so shutdown never
returns and the queue is never cleared (modelled as `none`); only on
success (or on the non-requeue exception path) does shutdown return, with
the queue cleared. -/
theorem c10_shutdown_deadlock :
    (shutdown (Outcome.http 500) 0 (⟨[3], 7, 1⟩ : UploaderState ℕ)).2 = Option.none
    ∧ (shutdown Outcome.requestExc 0 (⟨[3], 7, 1⟩ : UploaderState ℕ)).2 = Option.none
    ∧ (shutdown (Outcome.http 200) 9 (⟨[3], 7, 1⟩ : UploaderState ℕ)).2
      = Option.some ⟨[], 8, 9⟩ := by decide

/-- C4 (witness).  A 200 response produces exactly the success effects. -/
theorem c4_success_iff_w :
    (uploadBatch [7] (Outcome.http 200) 9 (⟨[1], 0, 0⟩ : UploaderState ℕ)).2.queue
      = (⟨[1], 0, 0⟩ : UploaderState ℕ).queue
    ∧ (uploadBatch [7] (Outcome.http 200) 9 (⟨[1], 0, 0⟩ : UploaderState ℕ)).2.total_uploaded
      = (⟨[1], 0, 0⟩ : UploaderState ℕ).total_uploaded + [7].length
    ∧ (uploadBatch [7] (Outcome.http 200) 9 (⟨[1], 0, 0⟩ : UploaderState ℕ)).2.last_upload = 9 :=
  (c4_success_iff [7] 200 9 ⟨[1], 0, 0⟩ (by decide)).mpr (Or.inl rfl)

end Smesh
